import Mathlib

/-!
Shallow embedding of the client-side dispatch core of `wayland-rs`
(`src/wayland-client/src/rust_imp/mod.rs` and
`src/wayland-client/src/event_queue.rs`), together with theorems settling
the specification claims about object lifecycle, dispatch routing and the
event-queue drain operations.
-/

namespace WaylandClient

/-- The per-object metadata of an object record: its interface name, the
shared liveness flag (`alive` is an `Arc<AtomicBool>` in the source, shared
between the map record and every proxy handle), and the two destruction
handshake flags (`ObjectMeta` in `rust_imp/proxy.rs`). -/
structure Object where
  interface : String
  alive : Bool
  client_destroyed : Bool
  server_destroyed : Bool
deriving DecidableEq

/-- The object map (`wayland_commons::map::ObjectMap`): a table from object
ids to live object records.  Total function representation; absent ids map
to `none`. -/
abbrev ObjectMap := Nat → Option Object

/-- `ObjectMap::remove`: deletes the record for `id`; later lookups return
absence. -/
def ObjectMap.remove (m : ObjectMap) (id : Nat) : ObjectMap :=
  fun i => if i = id then none else m i

/-- `ObjectMap::with`: runs a mutation `f` on the record for `id` when it is
present, storing the updated record and returning `f`'s result; on an absent
id the map is unchanged and no result is produced (`Err(())` in the source,
consumed via `unwrap_or`). -/
def ObjectMap.withRecord {β : Type} (m : ObjectMap) (id : Nat)
    (f : Object → Object × β) : ObjectMap × Option β :=
  match m id with
  | none => (m, none)
  | some obj =>
      let r := f obj
      (fun i => if i = id then some r.1 else m i, some r.2)

/-- `proxy.object.meta.alive.store(b)`: the atomic store to the shared
liveness flag.  The `AtomicBool` is shared between the proxy handle and the
map record, so the store is visible in the record whenever it is still
present. -/
def ObjectMap.storeAlive (m : ObjectMap) (id : Nat) (b : Bool) : ObjectMap :=
  fun i => if i = id then (m i).map (fun obj => { obj with alive := b }) else m i

/-- The client-side destruction bookkeeping block of
`ImplDispatcher::dispatch` (`rust_imp/mod.rs` lines 104-115): under the map
lock, set `client_destroyed` and read back `server_destroyed`
(`unwrap_or(false)` on an absent record); if the server flag was already
set, remove the record in the same critical section.  Returns the updated
map and whether the record was removed. -/
def markClientDestroyed (m : ObjectMap) (id : Nat) : ObjectMap × Bool :=
  let p := ObjectMap.withRecord m id fun obj =>
    ({ obj with client_destroyed := true }, obj.server_destroyed)
  let server_destroyed := p.2.getD false
  (if server_destroyed then ObjectMap.remove p.1 id else p.1, server_destroyed)

/-- Modelled from the spec: `mark_server_destroyed` — the server-side half of
the destruction handshake, which lives in `rust_imp/proxy.rs` and is not
under `src/`.  Per the spec it "sets its flag and returns whether the other
flag was already set. If so, the caller must `remove(id)` as part of the
same mutation".  Returns the updated map and whether the record was
removed. -/
def markServerDestroyed (m : ObjectMap) (id : Nat) : ObjectMap × Bool :=
  let p := ObjectMap.withRecord m id fun obj =>
    ({ obj with server_destroyed := true }, obj.client_destroyed)
  let client_destroyed := p.2.getD false
  (if client_destroyed then ObjectMap.remove p.1 id else p.1, client_destroyed)

/-- A raw wire message (`wayland_commons::wire::Message`), abstracted to
the fields the dispatch engine inspects. -/
structure Message where
  senderId : Nat
  opcode : Nat
deriving DecidableEq

/-- A decoded typed event (`I::Event`), abstracted to its opcode and its
protocol-defined destructor marker (`is_destructor()`). -/
structure Event where
  opcode : Nat
  destructor : Bool
deriving DecidableEq

/-- A proxy handle (`ProxyInner`), abstracted to the fields the dispatch
engine reads: the object id and the interface name of the referenced
record. -/
structure ProxyInner where
  id : Nat
  interface : String
deriving DecidableEq

/-- One observable step taken by `ImplDispatcher::dispatch`, in execution
order: the atomic `alive.store(false)`, the locked client-destroyed
bookkeeping block (carrying whether it removed the record), and the
invocation of the bound implementation closure with a decoded event. -/
inductive Action where
  | storeAliveFalse (id : Nat)
  | destructionBookkeeping (id : Nat) (removed : Bool)
  | invokeImpl (event : Event) (id : Nat)
deriving DecidableEq

/-- Whether an action is an implementation invocation. -/
def Action.isInvoke : Action → Bool
  | Action.invokeImpl _ _ => true
  | _ => false

/-- The outcome of one `ImplDispatcher::dispatch` call: the object map after
the call, the ordered trace of observable steps, and the `Result<(), ()>`
returned to the caller. -/
structure DispatchOutput where
  map : ObjectMap
  trace : List Action
  result : Except Unit Unit

/-- `ImplDispatcher::dispatch` (`rust_imp/mod.rs` lines 94-121).  `fromRaw`
is the wire-codec collaborator (`I::Event::from_raw`); a decode failure
(`none`) propagates as the `Err` result via `?` before anything else runs.
A destructor event first stores `false` into the shared alive flag, then
runs the locked client-destroyed bookkeeping, then invokes the
implementation; any other event only invokes the implementation. -/
def ImplDispatcher.dispatch (fromRaw : Message → Option Event)
    (m : ObjectMap) (proxy : ProxyInner) (msg : Message) : DispatchOutput :=
  match fromRaw msg with
  | none => { map := m, trace := [], result := Except.error () }
  | some message =>
      if message.destructor then
        let m1 := ObjectMap.storeAlive m proxy.id false
        let p := markClientDestroyed m1 proxy.id
        { map := p.1
          trace := [Action.storeAliveFalse proxy.id,
                    Action.destructionBookkeeping proxy.id p.2,
                    Action.invokeImpl message proxy.id]
          result := Except.ok () }
      else
        { map := m
          trace := [Action.invokeImpl message proxy.id]
          result := Except.ok () }

/-- `default_dispatcher` (`rust_imp/mod.rs` lines 136-149): the dispatcher
installed when no implementation is bound.  It writes a report to stderr
naming the object's interface and id, and returns `Err(())`.  Result: the
stderr line and the `Result<(), ()>` value. -/
def default_dispatcher (proxy : ProxyInner) : String × Except Unit Unit :=
  ("[wayland-client] Received an event for unimplemented object " ++
     proxy.interface ++ "@" ++ toString proxy.id ++ ".",
   Except.error ())

/-- Whether a message's target object has an implementation bound. -/
inductive Route where
  | implemented
  | unimplemented
deriving DecidableEq

/-- Modelled from the spec: the event queue's message loop
(`rust_imp/queues.rs`, not under `src/`) treats the default dispatcher's
"no implementation registered" failure as recoverable: it reports the
condition and continues dispatching subsequent messages.  Returns the
number of messages dispatched and the accumulated reports. -/
def processQueue : List (Route × ProxyInner) → Nat × List String
  | [] => (0, [])
  | (route, proxy) :: rest =>
      let reports := match route with
        | Route.implemented => []
        | Route.unimplemented => [(default_dispatcher proxy).1]
      let r := processQueue rest
      (r.1 + 1, reports ++ r.2)

/-- A failure raised on recovery of a type-erased value: Rust's `panic!`,
as raised by `Option::expect` or an out-of-bounds `Vec` index. -/
inductive PanicOr (α : Type) where
  | panic (msg : String)
  | ok (val : α)
deriving DecidableEq

/-- `Option::expect`: unwraps, panicking with `msg` on `None`. -/
def Option.expectOr {α : Type} (o : Option α) (msg : String) : PanicOr α :=
  match o with
  | some a => PanicOr.ok a
  | none => PanicOr.panic msg

/-- A `Box<Any>` handler slot: a value of erased static type, carrying its
runtime type tag (`TypeId`).  The stored handler itself is abstracted to a
`Nat` payload. -/
structure AnyBox where
  tag : Nat
  val : Nat
deriving DecidableEq

/-- `Any::downcast_ref::<T>` (also `downcast_mut`): returns the stored value
exactly when the stored runtime type tag equals the asserted type `t`,
and `None` otherwise. -/
def AnyBox.downcast (b : AnyBox) (t : Nat) : Option Nat :=
  if b.tag = t then some b.val else none

/-- Indexing `handlers[handler_id]` on a `Vec`: panics when the index is out
of bounds. -/
def indexHandlers (handlers : List AnyBox) (handler_id : Nat) : PanicOr AnyBox :=
  match handlers.get? handler_id with
  | none => PanicOr.panic "index out of bounds"
  | some b => PanicOr.ok b

/-- `StateGuard::get_handler::<H>` (`event_queue.rs` lines 58-61):
`self.evq.handle.handlers[handler_id].downcast_ref::<H>().expect("Handler type do not match.")`. -/
def StateGuard.get_handler (handlers : List AnyBox) (t : Nat)
    (handler_id : Nat) : PanicOr Nat :=
  match indexHandlers handlers handler_id with
  | PanicOr.panic msg => PanicOr.panic msg
  | PanicOr.ok b => Option.expectOr (b.downcast t) "Handler type do not match."

/-- `StateGuard::get_mut_handler::<H>` (`event_queue.rs` lines 69-72): same
recovery through `downcast_mut`. -/
def StateGuard.get_mut_handler (handlers : List AnyBox) (t : Nat)
    (handler_id : Nat) : PanicOr Nat :=
  match indexHandlers handlers handler_id with
  | PanicOr.panic msg => PanicOr.panic msg
  | PanicOr.ok b => Option.expectOr (b.downcast t) "Handler type do not match."

/-- The downcast performed by `EventQueueHandle::register` (`event_queue.rs`
lines 22-35): `self.handlers[handler_id].downcast_ref::<H>().expect("Handler
type do not match.")`, recovering the handler to hand to the native
dispatcher binding. -/
def EventQueueHandle.register (handlers : List AnyBox) (t : Nat)
    (handler_id : Nat) : PanicOr Nat :=
  match indexHandlers handlers handler_id with
  | PanicOr.panic msg => PanicOr.panic msg
  | PanicOr.ok b => Option.expectOr (b.downcast t) "Handler type do not match."

/-- The result of `catch_unwind` around `handler.message(...)` inside
`dispatch_func` (`event_queue.rs` lines 214-224): the handler returned
`Ok(())`, returned `Err(())` (unknown opcode), or panicked. -/
inductive HandlerResult where
  | handlerOk
  | handlerErr
  | panicked
deriving DecidableEq

/-- What the C dispatch callback does on return: hand a return code back to
the native library, or terminate the whole process (`libc::abort`). -/
inductive CFuncOutcome where
  | ret (code : Int)
  | abortProcess
deriving DecidableEq

/-- `dispatch_func` (`event_queue.rs` lines 205-246), after the
`catch_unwind` result: `Ok(Ok(()))` returns 0; `Ok(Err(()))` writes an
unknown-opcode report and aborts the process; a caught panic writes a
report and aborts the process.  Result: the outcome and the stderr lines
written. -/
def dispatch_func (interfaceName : String) (opcode : Nat)
    (r : HandlerResult) : CFuncOutcome × List String :=
  match r with
  | HandlerResult.handlerOk => (CFuncOutcome.ret 0, [])
  | HandlerResult.handlerErr =>
      (CFuncOutcome.abortProcess,
       ["[wayland-client error] Attempted to dispatch unknown opcode " ++
          toString opcode ++ " for " ++ interfaceName ++ ", aborting."])
  | HandlerResult.panicked =>
      (CFuncOutcome.abortProcess,
       ["[wayland-client error] An handler for " ++ interfaceName ++
          " panicked, aborting."])

/-- Modelled from the spec: the connection collaborator state behind the
`*mut wl_display` pointer — the default pending buffer, the pending buffer
of the one optional sub-queue, and whether the transport has failed. -/
structure WlDisplay where
  defaultBuffer : List Message
  subBuffer : List Message
  broken : Bool
deriving DecidableEq

/-- Modelled from the spec: `wl_display_dispatch_pending`, the connection
collaborator's non-blocking drain of the default pending buffer — it
dispatches every buffered message, returns how many, never blocks, and
returns `-1` on transport failure. -/
def wl_display_dispatch_pending (d : WlDisplay) : WlDisplay × Int :=
  if d.broken then (d, -1)
  else ({ d with defaultBuffer := [] }, Int.ofNat d.defaultBuffer.length)

/-- Modelled from the spec: `wl_display_dispatch_queue_pending`, the same
non-blocking drain for a named sub-queue's pending buffer. -/
def wl_display_dispatch_queue_pending (d : WlDisplay) : WlDisplay × Int :=
  if d.broken then (d, -1)
  else ({ d with subBuffer := [] }, Int.ofNat d.subBuffer.length)

/-- `EventQueue` (`event_queue.rs` lines 75-79): the display connection, the
optional sub-queue handle (`wlevq`), and the owned handler slots. -/
structure EventQueue where
  display : WlDisplay
  wlevq : Option Unit
  handlers : List AnyBox

/-- The pending buffer this queue drains: the sub-queue's buffer when a
sub-queue handle is assigned, the connection's default buffer otherwise. -/
def EventQueue.relevantBuffer (q : EventQueue) : List Message :=
  match q.wlevq with
  | some _ => q.display.subBuffer
  | none => q.display.defaultBuffer

/-- `EventQueue::dispatch` (`event_queue.rs` lines 92-115): calls
`wl_display_dispatch_queue_pending` when a sub-queue is assigned and
`wl_display_dispatch_pending` otherwise, then maps a non-negative return to
`Ok(ret as u32)` and a negative one to `Err(last_os_error())` (the error
payload is abstracted to `Unit`). -/
def EventQueue.dispatch (q : EventQueue) : EventQueue × Except Unit Nat :=
  let r := match q.wlevq with
    | some _ => wl_display_dispatch_queue_pending q.display
    | none => wl_display_dispatch_pending q.display
  if 0 ≤ r.2 then ({ q with display := r.1 }, Except.ok r.2.toNat)
  else ({ q with display := r.1 }, Except.error ())

/-- `EventQueue::dispatch_pending` (`event_queue.rs` lines 125-148): the
same case analysis on `wlevq`, the same two pending-drain calls, and the
same mapping of the raw return value. -/
def EventQueue.dispatch_pending (q : EventQueue) : EventQueue × Except Unit Nat :=
  let r := match q.wlevq with
    | some _ => wl_display_dispatch_queue_pending q.display
    | none => wl_display_dispatch_pending q.display
  if 0 ≤ r.2 then ({ q with display := r.1 }, Except.ok r.2.toNat)
  else ({ q with display := r.1 }, Except.error ())

/-! ### Helper lemmas on the destruction handshake -/

theorem markClientDestroyed_present (m : ObjectMap) (id : Nat) (obj : Object)
    (h : m id = some obj) :
    (markClientDestroyed m id).1 id =
      (if obj.server_destroyed then none
       else some { obj with client_destroyed := true }) ∧
    (markClientDestroyed m id).2 = obj.server_destroyed := by
  cases hsd : obj.server_destroyed <;>
    simp [markClientDestroyed, ObjectMap.withRecord, ObjectMap.remove, h, hsd]

theorem markServerDestroyed_present (m : ObjectMap) (id : Nat) (obj : Object)
    (h : m id = some obj) :
    (markServerDestroyed m id).1 id =
      (if obj.client_destroyed then none
       else some { obj with server_destroyed := true }) ∧
    (markServerDestroyed m id).2 = obj.client_destroyed := by
  cases hcd : obj.client_destroyed <;>
    simp [markServerDestroyed, ObjectMap.withRecord, ObjectMap.remove, h, hcd]

theorem markClientDestroyed_absent (m : ObjectMap) (id : Nat)
    (h : m id = none) : markClientDestroyed m id = (m, false) := by
  simp [markClientDestroyed, ObjectMap.withRecord, h]

theorem markServerDestroyed_absent (m : ObjectMap) (id : Nat)
    (h : m id = none) : markServerDestroyed m id = (m, false) := by
  simp [markServerDestroyed, ObjectMap.withRecord, h]

theorem storeAlive_lookup (m : ObjectMap) (id : Nat) (b : Bool) :
    ObjectMap.storeAlive m id b id = (m id).map (fun obj => { obj with alive := b }) := by
  simp [ObjectMap.storeAlive]

theorem storeAlive_absent (m : ObjectMap) (id : Nat) (b : Bool)
    (h : m id = none) : ObjectMap.storeAlive m id b = m := by
  funext i
  by_cases hi : i = id <;> simp [ObjectMap.storeAlive, hi, h]

/-! ### Claim theorems -/

/-- C9: `EventQueue::dispatch` and `EventQueue::dispatch_pending` are
extensionally equal — the same case analysis on the optional sub-queue, the
same underlying non-blocking pending-dispatch calls, and the same mapping of
the raw return value to `Ok(count)` or `Err`. -/
theorem c9_dispatch_extensionally_equals_dispatch_pending :
    ∀ q : EventQueue, EventQueue.dispatch q = EventQueue.dispatch_pending q :=
  fun _ => rfl

/-- C4: `dispatch_pending()` (a total function in this model, hence
non-blocking) returns `Ok(0)` on an empty buffer for a healthy connection,
returns the count of buffered messages it dispatched, and routes identically
to `dispatch()`. -/
theorem c4_dispatch_pending_empty_ok_zero (q : EventQueue)
    (h : q.display.broken = false) :
    (q.relevantBuffer = [] →
       (EventQueue.dispatch_pending q).2 = Except.ok 0) ∧
    (EventQueue.dispatch_pending q).2 = Except.ok q.relevantBuffer.length ∧
    EventQueue.dispatch_pending q = EventQueue.dispatch q := by
  refine ⟨fun he => ?_, ?_, rfl⟩ <;>
    cases hq : q.wlevq <;>
      simp_all [EventQueue.dispatch_pending, wl_display_dispatch_pending,
        wl_display_dispatch_queue_pending, EventQueue.relevantBuffer]

/-- An event queue on a healthy connection whose pending buffer holds no
message. -/
def emptyBufferQueue : EventQueue :=
  { display := { defaultBuffer := [], subBuffer := [], broken := false },
    wlevq := none, handlers := [] }

theorem c4_dispatch_pending_empty_ok_zero_witness :
    emptyBufferQueue.display.broken = false ∧
    ((emptyBufferQueue.relevantBuffer = [] →
       (EventQueue.dispatch_pending emptyBufferQueue).2 = Except.ok 0) ∧
    (EventQueue.dispatch_pending emptyBufferQueue).2 =
      Except.ok emptyBufferQueue.relevantBuffer.length ∧
    EventQueue.dispatch_pending emptyBufferQueue =
      EventQueue.dispatch emptyBufferQueue) :=
  ⟨rfl, c4_dispatch_pending_empty_ok_zero emptyBufferQueue rfl⟩

/-- An event queue on a healthy connection with an assigned sub-queue whose
pending buffer holds no message. -/
def emptySubQueue : EventQueue :=
  { display := { defaultBuffer := [], subBuffer := [], broken := false },
    wlevq := some (), handlers := [] }

/-- C3: contrary to the claim (and to `dispatch`'s own doc comment, which
says it blocks until some events are read when the buffer is empty),
`EventQueue::dispatch` calls the non-blocking pending drains and returns
`Ok(0)` immediately on an empty buffer — it cannot return 1 for a message
that has not yet arrived. -/
theorem c3_dispatch_empty_buffer_returns_zero :
    (EventQueue.dispatch emptyBufferQueue).2 = Except.ok 0 ∧
    (EventQueue.dispatch emptySubQueue).2 = Except.ok 0 ∧
    (EventQueue.dispatch emptyBufferQueue).2 ≠ Except.ok 1 := by
  refine ⟨rfl, rfl, fun hcontra => ?_⟩
  simp [emptyBufferQueue, EventQueue.dispatch, wl_display_dispatch_pending] at hcontra

/-- C5: a decode failure (`from_raw` returns no typed event) propagates as
`ImplDispatcher::dispatch`'s `Err` result before any handler runs: the
implementation is not invoked, no bookkeeping happens, the map is unchanged
— and the low-level `dispatch_func` aborts the process when a handler
reports an unknown opcode. -/
theorem c5_decode_failure_propagates (fromRaw : Message → Option Event)
    (m : ObjectMap) (proxy : ProxyInner) (msg : Message)
    (h : fromRaw msg = none) :
    (ImplDispatcher.dispatch fromRaw m proxy msg).result = Except.error () ∧
    (ImplDispatcher.dispatch fromRaw m proxy msg).trace = [] ∧
    (ImplDispatcher.dispatch fromRaw m proxy msg).map = m ∧
    (∀ interfaceName opcode,
       (dispatch_func interfaceName opcode HandlerResult.handlerErr).1 =
         CFuncOutcome.abortProcess) := by
  refine ⟨?_, ?_, ?_, fun _ _ => rfl⟩ <;> simp [ImplDispatcher.dispatch, h]

/-- A codec that fails to decode every raw message. -/
def decodeFail : Message → Option Event := fun _ => none

/-- The empty object map. -/
def emptyMap : ObjectMap := fun _ => none

/-- A proxy handle fixture. -/
def proxy0 : ProxyInner := { id := 3, interface := "wl_surface" }

/-- A raw message fixture. -/
def msg0 : Message := { senderId := 3, opcode := 0 }

theorem c5_decode_failure_propagates_witness :
    decodeFail msg0 = none ∧
    ((ImplDispatcher.dispatch decodeFail emptyMap proxy0 msg0).result =
        Except.error () ∧
     (ImplDispatcher.dispatch decodeFail emptyMap proxy0 msg0).trace = [] ∧
     (ImplDispatcher.dispatch decodeFail emptyMap proxy0 msg0).map = emptyMap ∧
     (∀ interfaceName opcode,
        (dispatch_func interfaceName opcode HandlerResult.handlerErr).1 =
          CFuncOutcome.abortProcess)) :=
  ⟨rfl, c5_decode_failure_propagates decodeFail emptyMap proxy0 msg0 rfl⟩

/-- C6: the default dispatcher returns an explicit `Err(())` and its report
names the object's interface and id; per the spec's recoverability policy
the queue loop dispatches every subsequent message regardless of how many
hit unimplemented objects. -/
theorem c6_default_dispatcher_recoverable (proxy : ProxyInner)
    (msgs : List (Route × ProxyInner)) :
    (default_dispatcher proxy).2 = Except.error () ∧
    (∃ s t, (default_dispatcher proxy).1 =
       s ++ proxy.interface ++ "@" ++ toString proxy.id ++ t) ∧
    (processQueue msgs).1 = msgs.length := by
  refine ⟨rfl,
    ⟨"[wayland-client] Received an event for unimplemented object ", ".",
     by simp [default_dispatcher]⟩, ?_⟩
  induction msgs with
  | nil => rfl
  | cons head tail ih =>
      obtain ⟨route, p⟩ := head
      cases route <;> simp [processQueue, ih]

/-- C8: when a panic escapes handler code, `dispatch_func` terminates the
whole process (`libc::abort`) instead of handing a return code back to the
native library, so no later dispatch can observe the fault's partial
mutations. -/
theorem c8_handler_panic_aborts_process (interfaceName : String) (opcode : Nat) :
    (dispatch_func interfaceName opcode HandlerResult.panicked).1 =
      CFuncOutcome.abortProcess ∧
    ∀ code, (dispatch_func interfaceName opcode HandlerResult.panicked).1 ≠
      CFuncOutcome.ret code :=
  ⟨rfl, fun code hcontra => by simp [dispatch_func] at hcontra⟩

/-- C7: recovering a handler slot under an asserted type tag `t` — via
`get_handler`, `get_mut_handler`, or the downcast inside `register` —
panics with "Handler type do not match." exactly when the stored tag is not
`t`, returns the stored handler when it is, and never returns a value under
a mismatched tag. -/
theorem c7_handler_downcast_loud_failure (handlers : List AnyBox) (t : Nat)
    (handler_id : Nat) (b : AnyBox) (h : handlers.get? handler_id = some b) :
    (b.tag ≠ t →
       StateGuard.get_handler handlers t handler_id =
         PanicOr.panic "Handler type do not match." ∧
       StateGuard.get_mut_handler handlers t handler_id =
         PanicOr.panic "Handler type do not match." ∧
       EventQueueHandle.register handlers t handler_id =
         PanicOr.panic "Handler type do not match.") ∧
    (b.tag = t →
       StateGuard.get_handler handlers t handler_id = PanicOr.ok b.val ∧
       StateGuard.get_mut_handler handlers t handler_id = PanicOr.ok b.val ∧
       EventQueueHandle.register handlers t handler_id = PanicOr.ok b.val) ∧
    (∀ v, StateGuard.get_handler handlers t handler_id = PanicOr.ok v →
       b.tag = t ∧ v = b.val) := by
  have hidx : indexHandlers handlers handler_id = PanicOr.ok b := by
    unfold indexHandlers
    rw [h]
  refine ⟨fun hne => ?_, fun heq => ?_, fun v hv => ?_⟩
  · simp [StateGuard.get_handler, StateGuard.get_mut_handler,
      EventQueueHandle.register, hidx, AnyBox.downcast, hne, Option.expectOr]
  · simp [StateGuard.get_handler, StateGuard.get_mut_handler,
      EventQueueHandle.register, hidx, AnyBox.downcast, heq, Option.expectOr]
  · by_cases htag : b.tag = t
    · simp [StateGuard.get_handler, hidx, AnyBox.downcast, htag,
        Option.expectOr] at hv
      exact ⟨htag, hv.symm⟩
    · simp [StateGuard.get_handler, hidx, AnyBox.downcast, htag,
        Option.expectOr] at hv

/-- A one-slot handler store whose slot holds a handler of type tag 0. -/
def handlers0 : List AnyBox := [{ tag := 0, val := 42 }]

/-- The stored handler slot of `handlers0`. -/
def box0 : AnyBox := { tag := 0, val := 42 }

theorem c7_handler_downcast_loud_failure_witness :
    handlers0.get? 0 = some box0 ∧
    ((box0.tag ≠ 1 →
       StateGuard.get_handler handlers0 1 0 =
         PanicOr.panic "Handler type do not match." ∧
       StateGuard.get_mut_handler handlers0 1 0 =
         PanicOr.panic "Handler type do not match." ∧
       EventQueueHandle.register handlers0 1 0 =
         PanicOr.panic "Handler type do not match.") ∧
    (box0.tag = 1 →
       StateGuard.get_handler handlers0 1 0 = PanicOr.ok box0.val ∧
       StateGuard.get_mut_handler handlers0 1 0 = PanicOr.ok box0.val ∧
       EventQueueHandle.register handlers0 1 0 = PanicOr.ok box0.val) ∧
    (∀ v, StateGuard.get_handler handlers0 1 0 = PanicOr.ok v →
       box0.tag = 1 ∧ v = box0.val)) :=
  ⟨rfl, c7_handler_downcast_loud_failure handlers0 1 0 box0 rfl⟩

/-- C2: dispatching a destructor event performs the bookkeeping before the
implementation runs — the trace is exactly alive-store, then the locked
client-destroyed block, then the single invocation; the invocation carries
the decoded event and happens exactly once, unconditionally (also when the
record is absent or just removed); the resulting map has the record removed
when the server flag was already set, and dead-but-present otherwise. -/
theorem c2_destructor_bookkeeping_before_impl (fromRaw : Message → Option Event)
    (m : ObjectMap) (proxy : ProxyInner) (msg : Message) (e : Event)
    (h1 : fromRaw msg = some e) (h2 : e.destructor = true) :
    (ImplDispatcher.dispatch fromRaw m proxy msg).trace =
      [Action.storeAliveFalse proxy.id,
       Action.destructionBookkeeping proxy.id
         (markClientDestroyed (ObjectMap.storeAlive m proxy.id false) proxy.id).2,
       Action.invokeImpl e proxy.id] ∧
    ((ImplDispatcher.dispatch fromRaw m proxy msg).trace.filter Action.isInvoke) =
      [Action.invokeImpl e proxy.id] ∧
    (ImplDispatcher.dispatch fromRaw m proxy msg).trace.getLast? =
      some (Action.invokeImpl e proxy.id) ∧
    (ImplDispatcher.dispatch fromRaw m proxy msg).map =
      (markClientDestroyed (ObjectMap.storeAlive m proxy.id false) proxy.id).1 ∧
    (∀ obj, m proxy.id = some obj → obj.server_destroyed = true →
       (ImplDispatcher.dispatch fromRaw m proxy msg).map proxy.id = none) ∧
    (∀ obj, m proxy.id = some obj → obj.server_destroyed = false →
       (ImplDispatcher.dispatch fromRaw m proxy msg).map proxy.id =
         some { obj with alive := false, client_destroyed := true }) ∧
    (ImplDispatcher.dispatch fromRaw m proxy msg).result = Except.ok () := by
  have hmap : (ImplDispatcher.dispatch fromRaw m proxy msg).map =
      (markClientDestroyed (ObjectMap.storeAlive m proxy.id false) proxy.id).1 := by
    simp [ImplDispatcher.dispatch, h1, h2]
  refine ⟨?_, ?_, ?_, hmap, ?_, ?_, ?_⟩
  · simp [ImplDispatcher.dispatch, h1, h2]
  · simp [ImplDispatcher.dispatch, h1, h2, Action.isInvoke]
  · simp [ImplDispatcher.dispatch, h1, h2]
  · intro obj hobj hsd
    have hsa : ObjectMap.storeAlive m proxy.id false proxy.id =
        some { obj with alive := false } := by
      simp [ObjectMap.storeAlive, hobj]
    rw [hmap, (markClientDestroyed_present _ proxy.id _ hsa).1]
    simp [hsd]
  · intro obj hobj hsd
    have hsa : ObjectMap.storeAlive m proxy.id false proxy.id =
        some { obj with alive := false } := by
      simp [ObjectMap.storeAlive, hobj]
    rw [hmap, (markClientDestroyed_present _ proxy.id _ hsa).1]
    simp [hsd]
  · simp [ImplDispatcher.dispatch, h1, h2]

/-- C10: dispatching a non-destructor event leaves the object map (hence
every record's alive flag and both destruction flags) unchanged; the only
step taken is the single implementation invocation, and the call succeeds. -/
theorem c10_non_destructor_frame (fromRaw : Message → Option Event)
    (m : ObjectMap) (proxy : ProxyInner) (msg : Message) (e : Event)
    (h1 : fromRaw msg = some e) (h2 : e.destructor = false) :
    (ImplDispatcher.dispatch fromRaw m proxy msg).map = m ∧
    (ImplDispatcher.dispatch fromRaw m proxy msg).trace =
      [Action.invokeImpl e proxy.id] ∧
    (ImplDispatcher.dispatch fromRaw m proxy msg).result = Except.ok () := by
  refine ⟨?_, ?_, ?_⟩ <;> simp [ImplDispatcher.dispatch, h1, h2]

/-- A fresh object record: alive, neither destruction flag set. -/
def obj0 : Object :=
  { interface := "wl_callback", alive := true,
    client_destroyed := false, server_destroyed := false }

/-- An object map holding `obj0` at id 1. -/
def m0 : ObjectMap := fun i => if i = 1 then some obj0 else none

/-- A proxy handle for the record at id 1. -/
def proxy1 : ProxyInner := { id := 1, interface := "wl_callback" }

/-- A destructor event fixture. -/
def destructorEvent : Event := { opcode := 0, destructor := true }

/-- A non-destructor event fixture. -/
def plainEvent : Event := { opcode := 0, destructor := false }

/-- A codec decoding every raw message to the destructor event. -/
def decodeDestructor : Message → Option Event := fun _ => some destructorEvent

/-- A codec decoding every raw message to the plain event. -/
def decodePlain : Message → Option Event := fun _ => some plainEvent

theorem c2_destructor_bookkeeping_before_impl_witness :
    decodeDestructor msg0 = some destructorEvent ∧
    destructorEvent.destructor = true ∧
    ((ImplDispatcher.dispatch decodeDestructor m0 proxy1 msg0).trace =
      [Action.storeAliveFalse proxy1.id,
       Action.destructionBookkeeping proxy1.id
         (markClientDestroyed (ObjectMap.storeAlive m0 proxy1.id false) proxy1.id).2,
       Action.invokeImpl destructorEvent proxy1.id] ∧
    ((ImplDispatcher.dispatch decodeDestructor m0 proxy1 msg0).trace.filter
       Action.isInvoke) = [Action.invokeImpl destructorEvent proxy1.id] ∧
    (ImplDispatcher.dispatch decodeDestructor m0 proxy1 msg0).trace.getLast? =
      some (Action.invokeImpl destructorEvent proxy1.id) ∧
    (ImplDispatcher.dispatch decodeDestructor m0 proxy1 msg0).map =
      (markClientDestroyed (ObjectMap.storeAlive m0 proxy1.id false) proxy1.id).1 ∧
    (∀ obj, m0 proxy1.id = some obj → obj.server_destroyed = true →
       (ImplDispatcher.dispatch decodeDestructor m0 proxy1 msg0).map proxy1.id =
         none) ∧
    (∀ obj, m0 proxy1.id = some obj → obj.server_destroyed = false →
       (ImplDispatcher.dispatch decodeDestructor m0 proxy1 msg0).map proxy1.id =
         some { obj with alive := false, client_destroyed := true }) ∧
    (ImplDispatcher.dispatch decodeDestructor m0 proxy1 msg0).result =
      Except.ok ()) :=
  ⟨rfl, rfl,
   c2_destructor_bookkeeping_before_impl decodeDestructor m0 proxy1 msg0
     destructorEvent rfl rfl⟩

theorem c10_non_destructor_frame_witness :
    decodePlain msg0 = some plainEvent ∧
    plainEvent.destructor = false ∧
    ((ImplDispatcher.dispatch decodePlain m0 proxy1 msg0).map = m0 ∧
    (ImplDispatcher.dispatch decodePlain m0 proxy1 msg0).trace =
      [Action.invokeImpl plainEvent proxy1.id] ∧
    (ImplDispatcher.dispatch decodePlain m0 proxy1 msg0).result = Except.ok ()) :=
  ⟨rfl, rfl,
   c10_non_destructor_frame decodePlain m0 proxy1 msg0 plainEvent rfl rfl⟩

/-- C1: a record is removed from the map only when both destruction flags
are true; removal happens exactly at the moment the second flag is set, by
whichever side observes the other flag already set, exactly once regardless
of the order (a mark on an absent record changes nothing, so a second
removal is impossible); in particular dispatching a destructor event removes
the record — in the same bookkeeping step that sets `client_destroyed` —
exactly when `server_destroyed` was already true, and performs no removal
when it was false or the record is absent. -/
theorem c1_removal_iff_both_flags (m : ObjectMap) (id : Nat) (obj : Object)
    (h : m id = some obj) :
    ((markClientDestroyed m id).1 id =
       (if obj.server_destroyed then none
        else some { obj with client_destroyed := true })) ∧
    ((markClientDestroyed m id).2 = obj.server_destroyed) ∧
    ((markServerDestroyed m id).1 id =
       (if obj.client_destroyed then none
        else some { obj with server_destroyed := true })) ∧
    ((markServerDestroyed m id).2 = obj.client_destroyed) ∧
    (∀ m' : ObjectMap, m' id = none →
       markClientDestroyed m' id = (m', false) ∧
       markServerDestroyed m' id = (m', false)) ∧
    (obj.client_destroyed = false → obj.server_destroyed = false →
       ((markClientDestroyed m id).1 id =
          some { obj with client_destroyed := true } ∧
        (markServerDestroyed (markClientDestroyed m id).1 id).1 id = none ∧
        (markServerDestroyed (markClientDestroyed m id).1 id).2 = true) ∧
       ((markServerDestroyed m id).1 id =
          some { obj with server_destroyed := true } ∧
        (markClientDestroyed (markServerDestroyed m id).1 id).1 id = none ∧
        (markClientDestroyed (markServerDestroyed m id).1 id).2 = true)) ∧
    (∀ fromRaw msg e iface, fromRaw msg = some e → e.destructor = true →
       (obj.server_destroyed = true →
          (ImplDispatcher.dispatch fromRaw m ⟨id, iface⟩ msg).map id = none) ∧
       (obj.server_destroyed = false →
          (ImplDispatcher.dispatch fromRaw m ⟨id, iface⟩ msg).map id =
            some { obj with alive := false, client_destroyed := true })) ∧
    (∀ (m' : ObjectMap) fromRaw msg e (p : ProxyInner), m' p.id = none →
       fromRaw msg = some e → e.destructor = true →
       (ImplDispatcher.dispatch fromRaw m' p msg).map = m') := by
  obtain ⟨hc1, hc2⟩ := markClientDestroyed_present m id obj h
  obtain ⟨hs1, hs2⟩ := markServerDestroyed_present m id obj h
  refine ⟨hc1, hc2, hs1, hs2,
    fun m' hm' => ⟨markClientDestroyed_absent m' id hm',
                   markServerDestroyed_absent m' id hm'⟩,
    fun hcd hsd => ?_, fun fromRaw msg e iface h1 h2 => ?_,
    fun m' fromRaw msg e p hm' h1 h2 => ?_⟩
  · constructor
    · have hfirst : (markClientDestroyed m id).1 id =
          some { obj with client_destroyed := true } := by
        rw [hc1]; simp [hsd]
      obtain ⟨hn1, hn2⟩ :=
        markServerDestroyed_present (markClientDestroyed m id).1 id _ hfirst
      refine ⟨hfirst, ?_, ?_⟩
      · rw [hn1]; simp
      · rw [hn2]
    · have hfirst : (markServerDestroyed m id).1 id =
          some { obj with server_destroyed := true } := by
        rw [hs1]; simp [hcd]
      obtain ⟨hn1, hn2⟩ :=
        markClientDestroyed_present (markServerDestroyed m id).1 id _ hfirst
      refine ⟨hfirst, ?_, ?_⟩
      · rw [hn1]; simp
      · rw [hn2]
  · have hsa : ObjectMap.storeAlive m id false id =
        some { obj with alive := false } := by
      simp [ObjectMap.storeAlive, h]
    have hmap : (ImplDispatcher.dispatch fromRaw m ⟨id, iface⟩ msg).map =
        (markClientDestroyed (ObjectMap.storeAlive m id false) id).1 := by
      simp [ImplDispatcher.dispatch, h1, h2]
    obtain ⟨hd1, _⟩ := markClientDestroyed_present _ id _ hsa
    constructor
    · intro hsd
      rw [hmap, hd1]; simp [hsd]
    · intro hsd
      rw [hmap, hd1]; simp [hsd]
  · have hsa := storeAlive_absent m' p.id false hm'
    simp [ImplDispatcher.dispatch, h1, h2, hsa,
      markClientDestroyed_absent m' p.id hm']

theorem c1_removal_iff_both_flags_witness :
    m0 1 = some obj0 ∧
    (((markClientDestroyed m0 1).1 1 =
       (if obj0.server_destroyed then none
        else some { obj0 with client_destroyed := true })) ∧
    ((markClientDestroyed m0 1).2 = obj0.server_destroyed) ∧
    ((markServerDestroyed m0 1).1 1 =
       (if obj0.client_destroyed then none
        else some { obj0 with server_destroyed := true })) ∧
    ((markServerDestroyed m0 1).2 = obj0.client_destroyed) ∧
    (∀ m' : ObjectMap, m' 1 = none →
       markClientDestroyed m' 1 = (m', false) ∧
       markServerDestroyed m' 1 = (m', false)) ∧
    (obj0.client_destroyed = false → obj0.server_destroyed = false →
       ((markClientDestroyed m0 1).1 1 =
          some { obj0 with client_destroyed := true } ∧
        (markServerDestroyed (markClientDestroyed m0 1).1 1).1 1 = none ∧
        (markServerDestroyed (markClientDestroyed m0 1).1 1).2 = true) ∧
       ((markServerDestroyed m0 1).1 1 =
          some { obj0 with server_destroyed := true } ∧
        (markClientDestroyed (markServerDestroyed m0 1).1 1).1 1 = none ∧
        (markClientDestroyed (markServerDestroyed m0 1).1 1).2 = true)) ∧
    (∀ fromRaw msg e iface, fromRaw msg = some e → e.destructor = true →
       (obj0.server_destroyed = true →
          (ImplDispatcher.dispatch fromRaw m0 ⟨1, iface⟩ msg).map 1 = none) ∧
       (obj0.server_destroyed = false →
          (ImplDispatcher.dispatch fromRaw m0 ⟨1, iface⟩ msg).map 1 =
            some { obj0 with alive := false, client_destroyed := true })) ∧
    (∀ (m' : ObjectMap) fromRaw msg e (p : ProxyInner), m' p.id = none →
       fromRaw msg = some e → e.destructor = true →
       (ImplDispatcher.dispatch fromRaw m' p msg).map = m')) :=
  ⟨rfl, c1_removal_iff_both_flags m0 1 obj0 rfl⟩

end WaylandClient
